import Mathlib

/-!
Shallow embedding of the desktop sidecar supervisor
(`apps/desktop-ui/src-tauri/src/backends.rs`).

The embedding replaces OS effects by explicit parameters:
* the filesystem is a predicate `fsExists : String → Bool`;
* path-resolution capabilities of the application context are `Option String`
  fields (a `none` models the corresponding Tauri resolver returning `Err`);
* TCP readiness of a port is a function of elapsed milliseconds;
* OS-level spawn/open/clone failures are Boolean oracles.

Every definition mirrors the corresponding Rust item and keeps its name.
-/

namespace Backends

/-- `PathBuf::join`: modelled on string paths with a `/` separator. -/
def pathJoin (dir file : String) : String := dir ++ "/" ++ file

/-- The ambient context the Rust code reads through `AppHandle`, `std::env`
and `cfg!`/`option_env!` macros, plus the OS oracles needed by `spawn_backend`
and `wait_port`. -/
structure AppEnv where
  /-- `std::env::current_exe()?.parent()`: directory of the running executable. -/
  exeDir : Option String
  /-- `app.path().resource_dir()`: the bundled-resource directory. -/
  resourceDir : Option String
  /-- `app.path().app_data_dir()`: the application-private data directory. -/
  appDataDir : Option String
  /-- `option_env!("TAURI_ENV_TARGET_TRIPLE")`: build-time platform triple. -/
  triple : Option String
  /-- `cfg!(windows)`. -/
  windows : Bool
  /-- `cfg!(debug_assertions)`. -/
  debugAssertions : Bool
  /-- Which paths exist on disk (`Path::exists`). -/
  fsExists : String → Bool
  /-- Whether `OpenOptions::open` succeeds on a given log path. -/
  openLogOk : String → Bool
  /-- Whether `File::try_clone` succeeds. -/
  cloneOk : Bool
  /-- Whether `Command::spawn` succeeds for a given binary path. -/
  spawnOk : String → Bool
  /-- `portState p t`: whether port `p` accepts a TCP connection at
  `t` milliseconds after the readiness wait began. -/
  portState : Nat → Nat → Bool

/-- Byte-wise lexicographic comparison of character lists, the order
`Vec<PathBuf>::sort` uses (paths compare by their byte representation). -/
def charsLe : List Char → List Char → Bool
  | [], _ => true
  | _ :: _, [] => false
  | a :: as, b :: bs =>
    if a.toNat < b.toNat then true
    else if b.toNat < a.toNat then false
    else charsLe as bs

/-- Lexicographic comparison on strings (computable in the kernel). -/
def strLe (a b : String) : Bool := charsLe a.data b.data

/-- `Vec::sort` on strings: insertion of one element into a sorted list. -/
def insortStr (x : String) : List String → List String
  | [] => [x]
  | y :: ys => if strLe x y then x :: y :: ys else y :: insortStr x ys

/-- `Vec::sort` on strings (any comparison sort agrees on the result). -/
def sortStr (l : List String) : List String := l.foldr insortStr []

/-- `Vec::dedup`: removes consecutive duplicates only. -/
def rustDedup : List String → List String
  | [] => []
  | [a] => [a]
  | a :: b :: rest =>
    if a = b then rustDedup (b :: rest) else a :: rustDedup (b :: rest)

/-- `candidate_dirs`: pushes the own-executable directory, then the
bundled-resource directory, then runs `out.sort(); out.dedup();`. -/
def candidate_dirs (env : AppEnv) : List String :=
  let out :=
    (match env.exeDir with | some d => [d] | none => []) ++
    (match env.resourceDir with | some d => [d] | none => [])
  rustDedup (sortStr out)

/-- `exe_suffix`: `".exe"` on Windows, empty elsewhere. -/
def exe_suffix (windows : Bool) : String := if windows then ".exe" else ""

/-- The filename variants of `find_external_bin`, in its priority order:
`{name}-{triple}{suffix}` first (when the build-time triple is available),
then `{name}{suffix}`. -/
def bin_candidates (env : AppEnv) (base_name : String) : List String :=
  let suffix := exe_suffix env.windows
  (match env.triple with
   | some t => [base_name ++ "-" ++ t ++ suffix]
   | none => []) ++
  [base_name ++ suffix]

/-- Inner loop of `find_external_bin`: first existing variant inside `dir`. -/
def findFileIn (fsExists : String → Bool) (dir : String) :
    List String → Option String
  | [] => none
  | file :: rest =>
    let p := pathJoin dir file
    if fsExists p then some p else findFileIn fsExists dir rest

/-- Outer loop of `find_external_bin`: directories, then variants. -/
def findInDirs (fsExists : String → Bool) (files : List String) :
    List String → Option String
  | [] => none
  | dir :: rest =>
    match findFileIn fsExists dir files with
    | some p => some p
    | none => findInDirs fsExists files rest

/-- `find_external_bin`: searches every candidate directory for every
filename variant, returning the first existing path. -/
def find_external_bin (env : AppEnv) (base_name : String) : Option String :=
  findInDirs env.fsExists (bin_candidates env base_name) (candidate_dirs env)

/-- `wait_port` loop body, with the elapsed clock advanced by the 120 ms
sleep between attempts.  Returns the result together with the number of
connection attempts made.  The fuel is an upper bound on the iteration
count, consumed only while `elapsed < timeout` holds, so it never cuts the
loop short (see `wait_port_go_fuel_irrelevant`). -/
def wait_port_go (isOpen : Nat → Bool) (timeout : Nat) :
    Nat → Nat → Bool × Nat
  | _, 0 => (false, 0)
  | elapsed, fuel + 1 =>
    if elapsed < timeout then
      if isOpen elapsed then (true, 1)
      else
        let r := wait_port_go isOpen timeout (elapsed + 120) fuel
        (r.1, r.2 + 1)
    else (false, 0)

/-- `wait_port`: polls `isOpen` until it holds or `timeout` (milliseconds)
elapses; also counts connection attempts.  Mirrors
`while start.elapsed() < timeout { if is_port_open(port) { return true; }
sleep(120ms); } false`. -/
def wait_port (isOpen : Nat → Bool) (timeout : Nat) : Bool × Nat :=
  wait_port_go isOpen timeout 0 (timeout / 120 + 1)

/-- The structured forms of the error strings `spawn_backend` can return. -/
inductive SpawnError where
  /-- "Sidecar binary not found: {name} (searched in {dirs})". -/
  | notFound (name : String) (searched : List String)
  /-- "Failed to resolve app_data_dir for logs". -/
  | dataDirUnavailable (name : String)
  /-- "Failed to open log file {path}". -/
  | openLogFailed (path : String)
  /-- "Failed to clone log file handle {path}". -/
  | cloneFailed (path : String)
  /-- "Failed to spawn {name} ({bin})". -/
  | spawnFailed (name : String) (bin : String)
  /-- "{name} did not become ready on port {port} within timeout". -/
  | notReady (name : String) (port : Nat)
  deriving DecidableEq, Repr

/-- The spawned `Child`, as far as the supervisor observes it: the binary
path it was launched from and the ordered `Command::env` calls applied to
it (`KARIOS_SIDE_CAR` last). -/
structure Child where
  bin : String
  envCalls : List (String × String)
  deriving DecidableEq, Repr

/-- The effective environment a sequence of `Command::env` calls produces:
a later call with the same key overrides an earlier one. -/
def lookupEnv : List (String × String) → String → Option String
  | [], _ => none
  | (k, v) :: rest, x =>
    match lookupEnv rest x with
    | some w => some w
    | none => if x = k then some v else none

/-- `spawn_backend`: resolves the binary, the log directory and file,
applies the environment (caller overrides first, then the fixed
`KARIOS_SIDE_CAR=1` marker), spawns, and waits for the port. -/
def spawn_backend (env : AppEnv) (name : String) (port : Nat)
    (timeout : Nat) (envs : List (String × String)) :
    Except SpawnError Child :=
  match find_external_bin env name with
  | none => .error (.notFound name (candidate_dirs env))
  | some bin =>
    match env.appDataDir with
    | none => .error (.dataDirUnavailable name)
    | some dataDir =>
      let log_dir := pathJoin dataDir "logs"
      let log_path := pathJoin log_dir (name ++ ".log")
      if env.openLogOk log_path then
        if env.cloneOk then
          let child : Child := ⟨bin, envs ++ [("KARIOS_SIDE_CAR", "1")]⟩
          if env.spawnOk bin then
            if (wait_port (env.portState port) timeout).1 then
              .ok child
            else .error (.notReady name port)
          else .error (.spawnFailed name bin)
        else .error (.cloneFailed log_path)
      else .error (.openLogFailed log_path)

/-- `BackendChild`: a registry entry (name, port, owned child handle). -/
structure BackendChild where
  name : String
  port : Nat
  child : Child
  deriving DecidableEq, Repr

/-- The two assigned ports of `start_on_launch`. -/
def ai_port : Nat := 4310

/-- The secondary service's assigned port. -/
def quant_port : Nat := 4320

/-- The data-directory string `start_on_launch` computes for the
`KARIOS_APP_DATA_DIR` variable: `app_data_dir()` with a `"."` fallback. -/
def app_data_dir_string (env : AppEnv) : String :=
  match env.appDataDir with
  | some p => p
  | none => "."

/-- Environment overrides handed to the primary (`karios-ai-service`). -/
def ai_envs (env : AppEnv) : List (String × String) :=
  [("PORT", toString ai_port),
   ("NODE_ENV", "production"),
   ("KARIOS_APP_DATA_DIR", app_data_dir_string env)]

/-- The `DATABASE_PATH` value of the secondary service:
`app_data_dir().join("karios.sqlite3")` with a `"karios.sqlite3"` fallback. -/
def database_path (env : AppEnv) : String :=
  match env.appDataDir with
  | some p => pathJoin p "karios.sqlite3"
  | none => "karios.sqlite3"

/-- Environment overrides handed to the secondary (`karios-quant-service`). -/
def quant_envs (env : AppEnv) : List (String × String) :=
  [("HOST", "127.0.0.1"),
   ("PORT", toString quant_port),
   ("AI_SERVICE_BASE_URL", "http://127.0.0.1:" ++ toString ai_port),
   ("PYTHONUNBUFFERED", "1"),
   ("DATABASE_PATH", database_path env)]

/-- The primary's launch attempt inside `start_on_launch`. -/
def ai_result (env : AppEnv) : Except SpawnError Child :=
  spawn_backend env "karios-ai-service" ai_port 10000 (ai_envs env)

/-- The secondary's launch attempt inside `start_on_launch`. -/
def quant_result (env : AppEnv) : Except SpawnError Child :=
  spawn_backend env "karios-quant-service" quant_port 25000 (quant_envs env)

/-- The contents of `spawned` after the release-mode body of
`start_on_launch` ran both attempts: the primary is pushed on success,
then the secondary is pushed on success. -/
def launch_pass (env : AppEnv) : List BackendChild :=
  let spawned :=
    match ai_result env with
    | .ok c => [⟨"karios-ai-service", ai_port, c⟩]
    | .error _ => []
  match quant_result env with
  | .ok c => spawned ++ [⟨"karios-quant-service", quant_port, c⟩]
  | .error _ => spawned

/-- An observable step of the launch sequence, in program order. -/
inductive LaunchEvent where
  /-- The `spawn_backend` call for `name` begins. -/
  | attemptStart (name : String)
  /-- The `spawn_backend` call for `name` returned (`ok` is its outcome). -/
  | attemptEnd (name : String) (ok : Bool)
  deriving DecidableEq, Repr

/-- The event trace of the release-mode body of `start_on_launch`: the
source runs the primary's `spawn_backend` to completion, matches on its
result, and only then runs the secondary's. -/
def launch_trace (env : AppEnv) : List LaunchEvent :=
  [.attemptStart "karios-ai-service",
   .attemptEnd "karios-ai-service" (ai_result env).toBool,
   .attemptStart "karios-quant-service",
   .attemptEnd "karios-quant-service" (quant_result env).toBool]

/-- `BackendManager` state: the `children` registry behind its mutex,
plus the process-wide `START_ONCE` latch. -/
structure ManagerState where
  latch : Bool
  children : List BackendChild
  deriving DecidableEq, Repr

/-- `BackendManager::start_on_launch` as a state transformer: returns
early when the latch already fired, marks the latch, returns without
spawning under `debug_assertions`, and otherwise replaces the registry
with the launch pass's result. -/
def start_on_launch (env : AppEnv) (st : ManagerState) : ManagerState :=
  if st.latch then st
  else
    let st := { st with latch := true }
    if env.debugAssertions then st
    else { st with children := launch_pass env }

/-- `BackendManager::stop_all`: issues a kill to every recorded child in
order — the per-child result (`killOk`) is computed but ignored — then
clears the registry.  Returns the kill attempts alongside the new state. -/
def stop_all (killOk : BackendChild → Bool) (st : ManagerState) :
    List (BackendChild × Bool) × ManagerState :=
  (st.children.map (fun c => (c, killOk c)), { st with children := [] })

/-! ### The `START_ONCE` latch under interleaving

`start_on_launch` begins with `if START_ONCE.get().is_some() { return; }
START_ONCE.set(()).ok();` — a read followed by a separate write whose
failure is discarded.  The model below runs two callers of that prologue
step by step under an explicit schedule; the latch cell itself is atomic
(each step is one indivisible access). -/

/-- Program counter of one caller of `start_on_launch`'s prologue. -/
inductive LatchPC where
  /-- About to execute `if START_ONCE.get().is_some() { return; }`. -/
  | check
  /-- About to execute `START_ONCE.set(()).ok();`. -/
  | setLatch
  /-- About to execute the launch body. -/
  | body
  /-- Returned. -/
  | done
  deriving DecidableEq, Repr

/-- Shared state of the two-caller interleaving: the `OnceLock` cell, how
many times the launch body has executed, and each caller's position. -/
structure RaceState where
  latch : Bool
  bodyCount : Nat
  pc1 : LatchPC
  pc2 : LatchPC
  deriving DecidableEq, Repr

/-- One atomic step of a single caller: `check` reads the latch and either
returns or proceeds; `setLatch` stores `true` (an already-set `OnceLock`
makes `set` fail, but `.ok()` discards that and the caller proceeds
regardless); `body` runs the launch body once. -/
def latchStep (latch : Bool) (pc : LatchPC) : Bool × Nat × LatchPC :=
  match pc with
  | .check => (latch, 0, if latch then .done else .setLatch)
  | .setLatch => (true, 0, .body)
  | .body => (latch, 1, .done)
  | .done => (latch, 0, .done)

/-- Advance the scheduled caller (`false` = caller 1, `true` = caller 2). -/
def raceStep (s : RaceState) (tid : Bool) : RaceState :=
  if tid then
    let (l, inc, pc) := latchStep s.latch s.pc2
    { s with latch := l, bodyCount := s.bodyCount + inc, pc2 := pc }
  else
    let (l, inc, pc) := latchStep s.latch s.pc1
    { s with latch := l, bodyCount := s.bodyCount + inc, pc1 := pc }

/-- Run a whole schedule of interleaved steps. -/
def raceRun (s : RaceState) : List Bool → RaceState
  | [] => s
  | t :: ts => raceRun (raceStep s t) ts

/-- Both callers at the entry of `start_on_launch`, latch unset. -/
def raceInit : RaceState := ⟨false, 0, .check, .check⟩

/-! ### Derived notions and concrete contexts used by the theorems -/

/-- Whether a launch attempt got as far as a successful `Command::spawn`:
`notReady` is the only error `spawn_backend` can return after the process
was spawned, so an attempt counts as spawned exactly when its result is
`ok` or `notReady`. -/
def attemptSpawned : Except SpawnError Child → Bool
  | .ok _ => true
  | .error (.notReady _ _) => true
  | .error _ => false

/-- The flattened directories-then-variants search order of
`find_external_bin`. -/
def search_order (env : AppEnv) (base_name : String) : List String :=
  (candidate_dirs env).flatMap fun d =>
    (bin_candidates env base_name).map (pathJoin d)

/-- A release-mode context in which every resolution and OS step succeeds
and both ports accept connections immediately. -/
def envAllOk : AppEnv where
  exeDir := some "/opt/app"
  resourceDir := some "/opt/app/resources"
  appDataDir := some "/data"
  triple := some "x86_64-linux"
  windows := false
  debugAssertions := false
  fsExists := fun _ => true
  openLogOk := fun _ => true
  cloneOk := true
  spawnOk := fun _ => true
  portState := fun _ _ => true

/-- Like `envAllOk`, but the primary's port 4310 never opens while the
secondary's port 4320 is open throughout. -/
def envQuantOnly : AppEnv :=
  { envAllOk with portState := fun port _ => port == 4320 }

/-- Like `envAllOk`, but the application-private data directory cannot be
resolved. -/
def envNoDataDir : AppEnv :=
  { envAllOk with appDataDir := none }

/-- Like `envAllOk`, but with an executable directory that sorts after the
resource directory. -/
def envSwap : AppEnv :=
  { envAllOk with exeDir := some "/zzz/bin", resourceDir := some "/aaa/res" }

/-- The child `spawn_backend` produces for the secondary service in
`envQuantOnly`. -/
def quantChildQ : Child :=
  ⟨"/opt/app/karios-quant-service-x86_64-linux",
   quant_envs envQuantOnly ++ [("KARIOS_SIDE_CAR", "1")]⟩

end Backends

deriving instance DecidableEq for Except

namespace Backends

/-- `charsLe` is reflexive. -/
theorem charsLe_refl (a : List Char) : charsLe a a = true := by
  induction a with
  | nil => rfl
  | cons x xs ih => simp [charsLe, ih]

/-- `charsLe` is total. -/
theorem charsLe_total (a b : List Char) :
    charsLe a b = true ∨ charsLe b a = true := by
  induction a generalizing b with
  | nil => exact Or.inl rfl
  | cons x xs ih =>
    cases b with
    | nil => exact Or.inr rfl
    | cons y ys =>
      by_cases h1 : x.toNat < y.toNat
      · exact Or.inl (by simp [charsLe, h1])
      · by_cases h2 : y.toNat < x.toNat
        · exact Or.inr (by simp [charsLe, h2])
        · rcases ih ys with h | h
          · exact Or.inl (by simp [charsLe, h1, h2, h])
          · exact Or.inr (by simp [charsLe, h1, h2, h])

/-- `strLe` is reflexive. -/
theorem strLe_refl (s : String) : strLe s s = true := charsLe_refl s.data

/-- `strLe` is total. -/
theorem strLe_total (a b : String) : strLe a b = true ∨ strLe b a = true :=
  charsLe_total a.data b.data

/-- A key set by the last `Command::env` call wins over every earlier call. -/
theorem lookupEnv_append_last (l : List (String × String)) (k v : String) :
    lookupEnv (l ++ [(k, v)]) k = some v := by
  induction l with
  | nil => simp [lookupEnv]
  | cons p rest ih => cases p with
    | mk k1 v1 => simp [lookupEnv, ih]

/-- The inner variant loop is `find?` over the joined paths. -/
theorem findFileIn_eq (fs : String → Bool) (dir : String)
    (files : List String) :
    findFileIn fs dir files = (files.map (pathJoin dir)).find? fs := by
  induction files with
  | nil => rfl
  | cons f rest ih =>
    by_cases h : fs (pathJoin dir f)
    · simp [findFileIn, h, List.find?]
    · simp [findFileIn, h, List.find?, ih]

/-- The directory loop is `find?` over the flattened
directories-then-variants order. -/
theorem findInDirs_eq (fs : String → Bool) (files dirs : List String) :
    findInDirs fs files dirs =
      (dirs.flatMap fun d => files.map (pathJoin d)).find? fs := by
  induction dirs with
  | nil => rfl
  | cons d rest ih =>
    rw [List.flatMap_cons, List.find?_append, ← findFileIn_eq, ← ih]
    cases h : findFileIn fs d files <;> simp [findInDirs, h]

/-- `find_external_bin` returns the first existing path in the
directories-then-variants search order. -/
theorem find_external_bin_eq (env : AppEnv) (base_name : String) :
    find_external_bin env base_name =
      (search_order env base_name).find? env.fsExists := by
  simpa [find_external_bin, search_order] using
    findInDirs_eq env.fsExists (bin_candidates env base_name)
      (candidate_dirs env)

/-- An `Except` is `ok` for some payload exactly when `toBool` holds. -/
theorem except_exists_ok_iff {ε α : Type} (r : Except ε α) :
    (∃ c, r = .ok c) ↔ r.toBool = true := by
  cases r <;> simp [Except.toBool]

/-- A successful `spawn_backend` hands the child exactly the caller's
overrides followed by the fixed `KARIOS_SIDE_CAR=1` marker. -/
theorem spawn_backend_ok_envCalls (env : AppEnv) (name : String)
    (port timeout : Nat) (envs : List (String × String)) (c : Child)
    (h : spawn_backend env name port timeout envs = .ok c) :
    c.envCalls = envs ++ [("KARIOS_SIDE_CAR", "1")] := by
  unfold spawn_backend at h
  dsimp only at h
  repeat' split at h
  all_goals try (cases h; rfl)
  all_goals simp_all

/-- `spawn_backend` succeeds exactly when the process was spawned and the
port wait succeeded. -/
theorem spawn_backend_toBool_iff (env : AppEnv) (name : String)
    (port timeout : Nat) (envs : List (String × String)) :
    (spawn_backend env name port timeout envs).toBool = true ↔
      (attemptSpawned (spawn_backend env name port timeout envs) = true ∧
        (wait_port (env.portState port) timeout).1 = true) := by
  unfold spawn_backend
  dsimp only
  repeat' split
  all_goals simp_all [attemptSpawned, Except.toBool]

/-- The primary's entry is in the pass's registry iff its attempt
succeeded. -/
theorem ai_mem_launch_pass (env : AppEnv) :
    (∃ c, (⟨"karios-ai-service", ai_port, c⟩ : BackendChild) ∈
        launch_pass env) ↔ (ai_result env).toBool = true := by
  cases hai : ai_result env <;> cases hq : quant_result env <;>
    simp +decide [launch_pass, hai, hq, Except.toBool, BackendChild.mk.injEq]

/-- The secondary's entry is in the pass's registry iff its attempt
succeeded. -/
theorem quant_mem_launch_pass (env : AppEnv) :
    (∃ c, (⟨"karios-quant-service", quant_port, c⟩ : BackendChild) ∈
        launch_pass env) ↔ (quant_result env).toBool = true := by
  cases hai : ai_result env <;> cases hq : quant_result env <;>
    simp +decide [launch_pass, hai, hq, Except.toBool, BackendChild.mk.injEq]

/-- Explicit form of `candidate_dirs` by cases on the two resolvers. -/
theorem candidate_dirs_eq (env : AppEnv) :
    candidate_dirs env =
      match env.exeDir, env.resourceDir with
      | none, none => []
      | some e, none => [e]
      | none, some r => [r]
      | some e, some r =>
        if e = r then [e] else if strLe e r then [e, r] else [r, e] := by
  cases he : env.exeDir with
  | none =>
    cases hr : env.resourceDir with
    | none => simp [candidate_dirs, he, hr, sortStr, rustDedup]
    | some r => simp [candidate_dirs, he, hr, sortStr, insortStr, rustDedup]
  | some e =>
    cases hr : env.resourceDir with
    | none => simp [candidate_dirs, he, hr, sortStr, insortStr, rustDedup]
    | some r =>
      by_cases heq : e = r
      · subst heq
        simp [candidate_dirs, he, hr, sortStr, insortStr, rustDedup,
          strLe_refl]
      · by_cases hle : strLe e r = true
        · simp [candidate_dirs, he, hr, sortStr, insortStr, rustDedup,
            hle, heq]
        · simp [candidate_dirs, he, hr, sortStr, insortStr, rustDedup,
            hle, heq, Ne.symm heq]

/-! ### Claim theorems -/

/-- C1 fails as stated: the builder sorts the candidate list, so with an
own-executable directory `/zzz/bin` and a bundled-resource directory
`/aaa/res` the list comes out `["/aaa/res", "/zzz/bin"]` — the resource
directory first, not the executable directory. -/
theorem C1_counterexample :
    envSwap.exeDir = some "/zzz/bin" ∧
    envSwap.resourceDir = some "/aaa/res" ∧
    candidate_dirs envSwap = ["/aaa/res", "/zzz/bin"] ∧
    candidate_dirs envSwap ≠ ["/zzz/bin", "/aaa/res"] := by decide

/-- C1 (amended): for every application context the candidate list is
deduplicated and contains exactly the available own-executable and
bundled-resource directories, but in sorted path order rather than
insertion order, and the locator searches directories in exactly this
list order. -/
theorem C1_amended_candidate_dirs (env : AppEnv) :
    (candidate_dirs env).Nodup ∧
    (candidate_dirs env).Chain' (fun a b => strLe a b = true) ∧
    (∀ d, d ∈ candidate_dirs env ↔
      (some d = env.exeDir ∨ some d = env.resourceDir)) ∧
    (∀ base_name, find_external_bin env base_name =
      findInDirs env.fsExists (bin_candidates env base_name)
        (candidate_dirs env)) := by
  refine ⟨?_, ?_, ?_, fun _ => rfl⟩ <;> rw [candidate_dirs_eq] <;>
  · cases he : env.exeDir with
    | none =>
      cases hr : env.resourceDir with
      | none => simp
      | some r => simp
    | some e =>
      cases hr : env.resourceDir with
      | none => simp
      | some r =>
        by_cases heq : e = r
        · subst heq
          simp
        · by_cases hle : strLe e r = true
          · simp [heq, hle]
          · have hge : strLe r e = true :=
              (strLe_total e r).resolve_left hle
            simp [heq, hle, hge, Ne.symm heq]
            try exact fun d => or_comm

/-- C2 fails as stated: in a context where the data directory is
unresolvable but the binary is present, the OS spawn would succeed and the
port accepts connections throughout, both launch attempts still fail
outright with the data-directory error and the registry stays empty. -/
theorem C2_counterexample :
    envNoDataDir.appDataDir = none ∧
    (find_external_bin envNoDataDir "karios-ai-service").isSome = true ∧
    (wait_port (envNoDataDir.portState ai_port) 10000).1 = true ∧
    ai_result envNoDataDir =
      .error (.dataDirUnavailable "karios-ai-service") ∧
    quant_result envNoDataDir =
      .error (.dataDirUnavailable "karios-quant-service") ∧
    launch_pass envNoDataDir = [] := by decide

/-- C2 (amended): when the application-private data directory cannot be
resolved, the supervisor falls back to relative paths only for the values
wired into the children's environments (`KARIOS_APP_DATA_DIR` becomes `"."`
and `DATABASE_PATH` becomes `"karios.sqlite3"`); the launch attempt itself
still fails with the data-directory error whenever a binary was found,
because the log directory requires the resolved data directory. -/
theorem C2_amended_datadir_fallback (env : AppEnv)
    (h : env.appDataDir = none) :
    app_data_dir_string env = "." ∧
    database_path env = "karios.sqlite3" ∧
    ∀ name port timeout envs bin,
      find_external_bin env name = some bin →
      spawn_backend env name port timeout envs =
        .error (.dataDirUnavailable name) := by
  refine ⟨by simp [app_data_dir_string, h], by simp [database_path, h], ?_⟩
  intro name port timeout envs bin hfind
  simp [spawn_backend, hfind, h]

/-- Witness for C2 (amended) in the concrete context `envNoDataDir`. -/
theorem C2_amended_datadir_fallback_witness :
    app_data_dir_string envNoDataDir = "." ∧
    database_path envNoDataDir = "karios.sqlite3" ∧
    ∀ name port timeout envs bin,
      find_external_bin envNoDataDir name = some bin →
      spawn_backend envNoDataDir name port timeout envs =
        .error (.dataDirUnavailable name) :=
  C2_amended_datadir_fallback envNoDataDir rfl

/-- C3: a service's entry is in the pass's registry iff its process was
spawned and its port became reachable within its deadline; a service whose
port never opens within its deadline is never added; and both attempts
always occur with the secondary's outcome determined solely by its own
attempt, so a failed primary neither blocks nor aborts the secondary. -/
theorem C3_registry_iff_spawned_ready (env : AppEnv) :
    ((∃ c, (⟨"karios-ai-service", ai_port, c⟩ : BackendChild) ∈
        launch_pass env) ↔
      (attemptSpawned (ai_result env) = true ∧
        (wait_port (env.portState ai_port) 10000).1 = true)) ∧
    ((∃ c, (⟨"karios-quant-service", quant_port, c⟩ : BackendChild) ∈
        launch_pass env) ↔
      (attemptSpawned (quant_result env) = true ∧
        (wait_port (env.portState quant_port) 25000).1 = true)) ∧
    ((wait_port (env.portState ai_port) 10000).1 = false →
      ∀ c, (⟨"karios-ai-service", ai_port, c⟩ : BackendChild) ∉
        launch_pass env) ∧
    ((wait_port (env.portState quant_port) 25000).1 = false →
      ∀ c, (⟨"karios-quant-service", quant_port, c⟩ : BackendChild) ∉
        launch_pass env) ∧
    LaunchEvent.attemptStart "karios-ai-service" ∈ launch_trace env ∧
    LaunchEvent.attemptStart "karios-quant-service" ∈ launch_trace env := by
  have hai : (ai_result env).toBool = true ↔
      (attemptSpawned (ai_result env) = true ∧
        (wait_port (env.portState ai_port) 10000).1 = true) :=
    spawn_backend_toBool_iff env "karios-ai-service" ai_port 10000
      (ai_envs env)
  have hq : (quant_result env).toBool = true ↔
      (attemptSpawned (quant_result env) = true ∧
        (wait_port (env.portState quant_port) 25000).1 = true) :=
    spawn_backend_toBool_iff env "karios-quant-service" quant_port 25000
      (quant_envs env)
  have h1 := (ai_mem_launch_pass env).trans hai
  have h2 := (quant_mem_launch_pass env).trans hq
  refine ⟨h1, h2, ?_, ?_, ?_, ?_⟩
  · intro hw c hc
    have hco := (h1.mp ⟨c, hc⟩).2
    rw [hw] at hco
    exact Bool.noConfusion hco
  · intro hw c hc
    have hco := (h2.mp ⟨c, hc⟩).2
    rw [hw] at hco
    exact Bool.noConfusion hco
  · simp [launch_trace]
  · simp [launch_trace]

/-- C4: the `START_ONCE` latch cell is set at most once and, for
sequential callers, the launch body runs exactly once; but the prologue is
a read followed by a separate write whose failure is discarded, so under
the interleaving in which both callers pass the `get()` check before
either `set()` the body executes twice — refuting exactly-once execution
for concurrent callers. -/
theorem C4_start_latch_race :
    (raceRun raceInit [false, false, false, true, true, true]).bodyCount
      = 1 ∧
    (raceRun raceInit [false, true, false, false, true, true]).bodyCount
      = 2 ∧
    (raceRun raceInit [false, true, false, false, true, true]).latch
      = true := by decide

/-- C5: if during one pass the primary's attempt fails and the
secondary's succeeds, the registry after the pass holds exactly the
secondary's entry, and a subsequent `stop_all` issues a kill to exactly
that one process and empties the registry. -/
theorem C5_partial_failure (env : AppEnv) (e : SpawnError) (c : Child)
    (h1 : ai_result env = .error e) (h2 : quant_result env = .ok c) :
    launch_pass env = [⟨"karios-quant-service", quant_port, c⟩] ∧
    ∀ (killOk : BackendChild → Bool) (l : Bool),
      stop_all killOk ⟨l, launch_pass env⟩ =
        ([(⟨"karios-quant-service", quant_port, c⟩,
            killOk ⟨"karios-quant-service", quant_port, c⟩)], ⟨l, []⟩) := by
  have hlp : launch_pass env = [⟨"karios-quant-service", quant_port, c⟩] := by
    simp [launch_pass, h1, h2]
  exact ⟨hlp, fun killOk l => by simp [stop_all, hlp]⟩

/-- Witness for C5 in `envQuantOnly`, where the primary's port never opens
and the secondary's attempt succeeds. -/
theorem C5_partial_failure_witness :
    launch_pass envQuantOnly =
      [⟨"karios-quant-service", quant_port, quantChildQ⟩] ∧
    ∀ (killOk : BackendChild → Bool) (l : Bool),
      stop_all killOk ⟨l, launch_pass envQuantOnly⟩ =
        ([(⟨"karios-quant-service", quant_port, quantChildQ⟩,
            killOk ⟨"karios-quant-service", quant_port, quantChildQ⟩)],
         ⟨l, []⟩) :=
  C5_partial_failure envQuantOnly
    (.notReady "karios-ai-service" ai_port) quantChildQ
    (by decide) (by decide)

/-- C6: inside any candidate directory where the platform-qualified
binary name exists it is the one chosen (in particular when the generic
name exists alongside it); globally the locator returns the first existing
path in directories-then-variants order; and when no variant exists
anywhere the spawn fails with the not-found error carrying the searched
directory list. -/
theorem C6_resolution_precedence (env : AppEnv) (base_name : String) :
    (find_external_bin env base_name =
      (search_order env base_name).find? env.fsExists) ∧
    (∀ dir t, env.triple = some t →
      env.fsExists
        (pathJoin dir (base_name ++ "-" ++ t ++ exe_suffix env.windows))
          = true →
      findFileIn env.fsExists dir (bin_candidates env base_name) =
        some (pathJoin dir
          (base_name ++ "-" ++ t ++ exe_suffix env.windows))) ∧
    (find_external_bin env base_name = none →
      ∀ port timeout envs, spawn_backend env base_name port timeout envs =
        .error (.notFound base_name (candidate_dirs env))) := by
  refine ⟨find_external_bin_eq env base_name, ?_, ?_⟩
  · intro dir t ht hx
    simp [bin_candidates, ht, findFileIn, hx]
  · intro hnone port timeout envs
    simp [spawn_backend, hnone]

/-- C7: in every execution of the launch sequence, any start of the
secondary's attempt in the trace is strictly preceded by the conclusion
(success or failure) of the primary's attempt. -/
theorem C7_primary_before_secondary (env : AppEnv) (j : Nat)
    (hj : (launch_trace env).get? j =
      some (.attemptStart "karios-quant-service")) :
    ∃ i, i < j ∧ ∃ ok, (launch_trace env).get? i =
      some (.attemptEnd "karios-ai-service" ok) := by
  match j with
  | 0 => simp +decide [launch_trace] at hj
  | 1 => simp [launch_trace] at hj
  | 2 => exact ⟨1, by omega, (ai_result env).toBool, rfl⟩
  | 3 => simp [launch_trace] at hj
  | (n + 4) => simp [launch_trace] at hj

/-- Witness for C7 at the concrete context `envAllOk` and trace index 2. -/
theorem C7_primary_before_secondary_witness :
    ∃ i, i < 2 ∧ ∃ ok, (launch_trace envAllOk).get? i =
      some (.attemptEnd "karios-ai-service" ok) :=
  C7_primary_before_secondary envAllOk 2 (by decide)

/-- C8: `stop_all` issues one kill per recorded child, in registry order,
irrespective of the per-kill outcomes it ignores, then clears the
registry; on an empty registry it kills nothing and changes nothing; and
a second consecutive `stop_all` returns the same empty terminal state as
the first. -/
theorem C8_stop_all_idempotent (killOk : BackendChild → Bool)
    (st : ManagerState) :
    ((stop_all killOk st).1.map Prod.fst = st.children) ∧
    ((stop_all killOk st).2.children = []) ∧
    (∀ l : Bool, stop_all killOk ⟨l, []⟩ = ([], ⟨l, []⟩)) ∧
    (stop_all killOk (stop_all killOk st).2 =
      ([], (stop_all killOk st).2)) := by
  refine ⟨?_, rfl, fun l => rfl, rfl⟩
  have key : ∀ l : List BackendChild,
      (l.map fun c => (c, killOk c)).map Prod.fst = l := by
    intro l
    induction l with
    | nil => rfl
    | cons a t ih => simp [ih]
  exact key st.children

/-- C9: under a zero deadline the readiness probe reports not-ready after
zero connection attempts, even when the port is accepting connections at
entry. -/
theorem C9_zero_deadline_no_probe (isOpen : Nat → Bool)
    (_h : isOpen 0 = true) :
    wait_port isOpen 0 = (false, 0) := rfl

/-- Witness for C9 at a port accepting from time zero. -/
theorem C9_zero_deadline_no_probe_witness :
    wait_port (fun _ => true) 0 = (false, 0) :=
  C9_zero_deadline_no_probe (fun _ => true) rfl

/-- C10: every successful spawn applies the `KARIOS_SIDE_CAR` marker after
all caller-supplied overrides, so the child's effective environment maps
that key to `"1"` even when the caller's override list assigns it. -/
theorem C10_sidecar_marker_last (env : AppEnv) (name : String)
    (port timeout : Nat) (envs : List (String × String)) (c : Child)
    (h : spawn_backend env name port timeout envs = .ok c) :
    c.envCalls = envs ++ [("KARIOS_SIDE_CAR", "1")] ∧
    lookupEnv c.envCalls "KARIOS_SIDE_CAR" = some "1" := by
  have he := spawn_backend_ok_envCalls env name port timeout envs c h
  exact ⟨he, by rw [he]; exact lookupEnv_append_last envs _ _⟩

/-- Witness for C10 with a caller override list that itself assigns
`KARIOS_SIDE_CAR` (to `"0"`): the child still observes `"1"`. -/
theorem C10_sidecar_marker_last_witness :
    (⟨"/opt/app/karios-ai-service-x86_64-linux",
      [("KARIOS_SIDE_CAR", "0"), ("KARIOS_SIDE_CAR", "1")]⟩ : Child).envCalls
        = [("KARIOS_SIDE_CAR", "0")] ++ [("KARIOS_SIDE_CAR", "1")] ∧
    lookupEnv (⟨"/opt/app/karios-ai-service-x86_64-linux",
      [("KARIOS_SIDE_CAR", "0"),
       ("KARIOS_SIDE_CAR", "1")]⟩ : Child).envCalls
        "KARIOS_SIDE_CAR" = some "1" :=
  C10_sidecar_marker_last envAllOk "karios-ai-service" 4310 10000
    [("KARIOS_SIDE_CAR", "0")]
    ⟨"/opt/app/karios-ai-service-x86_64-linux",
      [("KARIOS_SIDE_CAR", "0"), ("KARIOS_SIDE_CAR", "1")]⟩
    (by decide)

end Backends
